import Mathlib

/-
Verification of the investment-advisor core against its specification.

The embedding below translates the three core components of the repository
into Lean definitions:

* the ledger (src/src/models/portfolio_tracker.py): positions, transactions
  and recommendations, with the mutating operations execute_transaction,
  _update_position, add_recommendation and the read operation get_positions;
* the scoring engine (src/src/models/recommendation_engine.py): per-indicator
  scores, risk-profile weight tables, the composite weighted mean and the
  action/confidence decision;
* the indicator engine (src/src/analyzers/technical_analysis.py):
  calculate_all_indicators, modelled at the level of column presence, which
  is the granularity at which its failure semantics (missing required
  columns) operate.

Python floats are modelled as rationals; timestamps as natural-number ticks
supplied explicitly where the source calls datetime.now(); the SQLite tables
as Lean lists of rows (the symbol column is the primary key of positions,
recommendation_id the primary key of recommendations).
-/

namespace InvestmentAdvisor

/-! ## Ledger data model (portfolio_tracker.py) -/

/-- A row of the positions table: (symbol PK, quantity, avg_cost, entry_date,
last_updated). -/
structure PositionRow where
  symbol : String
  quantity : ℚ
  avg_cost : ℚ
  entry_date : Nat
  last_updated : Nat
deriving Repr, DecidableEq

/-- The Transaction dataclass / transactions table row. -/
structure Transaction where
  transaction_id : String
  symbol : String
  action : String
  quantity : ℚ
  price : ℚ
  total_cost : ℚ
  commission : ℚ
  timestamp : Nat
  recommendation_id : Option String
  notes : Option String
deriving Repr, DecidableEq

/-- The Recommendation dataclass / recommendations table row. -/
structure Recommendation where
  recommendation_id : String
  symbol : String
  action : String
  confidence : ℚ
  reasoning : String
  target_price : Option ℚ
  stop_loss : Option ℚ
  timestamp : Nat
  executed : Bool
  execution_price : Option ℚ
  execution_date : Option Nat
  outcome_score : Option ℚ
deriving Repr, DecidableEq

/-- The Position dataclass returned by get_positions: a position row
re-priced against a current price. -/
structure Position where
  symbol : String
  quantity : ℚ
  avg_cost : ℚ
  current_price : ℚ
  market_value : ℚ
  unrealized_pnl : ℚ
  unrealized_pnl_pct : ℚ
  entry_date : Nat
  last_updated : Nat
deriving Repr, DecidableEq

/-- The mutable state of the tracker: the three tables that
execute_transaction touches. -/
structure TrackerState where
  positions : List PositionRow
  transactions : List Transaction
  recommendations : List Recommendation
deriving Repr, DecidableEq

/-- str.upper() restricted to ASCII, as used on the action argument. -/
def upper (s : String) : String :=
  ⟨s.data.map Char.toUpper⟩

/-- SELECT * FROM positions WHERE symbol = ? (symbol is the primary key). -/
def lookupPosition (positions : List PositionRow) (symbol : String) :
    Option PositionRow :=
  positions.find? (fun r => r.symbol == symbol)

/-- PortfolioTracker._update_position: position bookkeeping after a
transaction.  BUY merges into the weighted-average cost or inserts a fresh
row; SELL reduces the quantity, deleting the row when the remaining quantity
is not positive.  No validation is performed anywhere in this function. -/
def update_position (positions : List PositionRow) (symbol action : String)
    (quantity price : ℚ) (now : Nat) : List PositionRow :=
  let current_position := lookupPosition positions symbol
  if upper action = "BUY" then
    match current_position with
    | some current =>
        let total_cost := current.quantity * current.avg_cost + quantity * price
        let new_quantity := current.quantity + quantity
        let new_avg_cost := total_cost / new_quantity
        positions.map (fun r =>
          if r.symbol == symbol then
            { r with quantity := new_quantity, avg_cost := new_avg_cost,
                     last_updated := now }
          else r)
    | none =>
        positions ++ [⟨symbol, quantity, price, now, now⟩]
  else if upper action = "SELL" then
    match current_position with
    | some current =>
        let new_quantity := current.quantity - quantity
        if new_quantity ≤ 0 then
          positions.filter (fun r => !(r.symbol == symbol))
        else
          positions.map (fun r =>
            if r.symbol == symbol then
              { r with quantity := new_quantity, last_updated := now }
            else r)
    | none => positions
  else positions

/-- PortfolioTracker.execute_transaction: unconditionally appends the
transaction row, updates the position via _update_position, and, when a
recommendation_id is supplied, sets executed, execution_price and
execution_date on the matching recommendation row.  The source performs no
validation of quantity, price or held quantity. -/
def execute_transaction (st : TrackerState) (symbol action : String)
    (quantity price commission : ℚ) (recommendation_id : Option String)
    (notes : Option String) (now : Nat) : TrackerState :=
  let transaction_id := action ++ "_" ++ symbol ++ "_" ++ toString now
  let total_cost :=
    if upper action = "BUY" then quantity * price + commission
    else quantity * price - commission
  let t : Transaction :=
    ⟨transaction_id, symbol, upper action, quantity, price, total_cost,
     commission, now, recommendation_id, notes⟩
  let new_recommendations :=
    match recommendation_id with
    | some rid =>
        st.recommendations.map (fun r =>
          if r.recommendation_id == rid then
            { r with executed := true, execution_price := some price,
                     execution_date := some now }
          else r)
    | none => st.recommendations
  ⟨update_position st.positions symbol action quantity price now,
   st.transactions ++ [t], new_recommendations⟩

/-- PortfolioTracker.add_recommendation: append-only insert with
executed = 0 (the schema default). -/
def add_recommendation (st : TrackerState) (symbol action : String)
    (confidence : ℚ) (reasoning : String)
    (target_price stop_loss : Option ℚ) (now : Nat) : TrackerState :=
  let recommendation_id := symbol ++ "_" ++ action ++ "_" ++ toString now
  let r : Recommendation :=
    ⟨recommendation_id, symbol, action, confidence, reasoning, target_price,
     stop_loss, now, false, none, none, none⟩
  { st with recommendations := st.recommendations ++ [r] }

/-- PortfolioTracker.get_positions, database path.  (The cache path can only
serve a request in which every cached symbol is present in current_prices,
so a symbol missing from current_prices is always served by this path.)
An absent symbol falls back to avg_cost as the current price; the PnL
percentage is guarded by the quantity*avg_cost > 0 test of the source. -/
def get_positions (positions : List PositionRow)
    (current_prices : List (String × ℚ)) (now : Nat) : List Position :=
  positions.map (fun row =>
    let current_price :=
      match current_prices.lookup row.symbol with
      | some p => p
      | none => row.avg_cost
    let market_value := row.quantity * current_price
    let unrealized_pnl := market_value - row.quantity * row.avg_cost
    let unrealized_pnl_pct :=
      if row.quantity * row.avg_cost > 0 then
        unrealized_pnl / (row.quantity * row.avg_cost) * 100
      else 0
    ⟨row.symbol, row.quantity, row.avg_cost, current_price, market_value,
     unrealized_pnl, unrealized_pnl_pct, row.entry_date, now⟩)

/-! ## Scoring engine (recommendation_engine.py) -/

/-- Weight table for the conservative risk tolerance; indicators outside the
table get weight 0 (dict .get default). -/
def conservativeWeights : String → ℚ := fun indicator =>
  if indicator = "rsi" then 25/100
  else if indicator = "macd" then 20/100
  else if indicator = "moving_averages" then 30/100
  else if indicator = "bollinger_bands" then 15/100
  else if indicator = "volume" then 10/100
  else 0

/-- Weight table for the moderate risk tolerance. -/
def moderateWeights : String → ℚ := fun indicator =>
  if indicator = "rsi" then 20/100
  else if indicator = "macd" then 25/100
  else if indicator = "moving_averages" then 25/100
  else if indicator = "bollinger_bands" then 20/100
  else if indicator = "volume" then 10/100
  else 0

/-- Weight table for the aggressive risk tolerance. -/
def aggressiveWeights : String → ℚ := fun indicator =>
  if indicator = "rsi" then 15/100
  else if indicator = "macd" then 30/100
  else if indicator = "moving_averages" then 20/100
  else if indicator = "bollinger_bands" then 25/100
  else if indicator = "volume" then 10/100
  else 0

/-- RecommendationEngine._get_score_weights: an unknown risk tolerance falls
back to the moderate table (dict .get default). -/
def score_weights (risk_tolerance : String) : String → ℚ :=
  if risk_tolerance = "conservative" then conservativeWeights
  else if risk_tolerance = "moderate" then moderateWeights
  else if risk_tolerance = "aggressive" then aggressiveWeights
  else moderateWeights

/-- The five indicator categories of the weight tables. -/
def indicatorCategories : List String :=
  ["rsi", "macd", "moving_averages", "bollinger_bands", "volume"]

/-- RecommendationEngine.calculate_rsi_score. -/
def calculate_rsi_score (rsi_value : ℚ) : ℚ × String :=
  if rsi_value < 30 then
    (8/10, "RSI indicates oversold condition (strong buy signal)")
  else if rsi_value < 40 then
    (6/10, "RSI shows potential buying opportunity")
  else if rsi_value > 70 then
    (-(8/10), "RSI indicates overbought condition (strong sell signal)")
  else if rsi_value > 60 then
    (-(6/10), "RSI suggests potential selling opportunity")
  else
    (0, "RSI in neutral range")

/-- RecommendationEngine.calculate_macd_score over the (at most two) latest
macd values.  The source reads current_signal from the same series and never
uses it; the crossover test compares the latest and previous macd values. -/
def calculate_macd_score (macd_data : List ℚ) : ℚ × String :=
  if macd_data.length < 2 then (0, "Insufficient MACD data")
  else
    let current_macd := macd_data.getLastD 0
    let prev_macd := macd_data.dropLast.getLastD 0
    if current_macd > 0 ∧ prev_macd ≤ 0 then
      (7/10, "MACD bullish crossover detected")
    else if current_macd < 0 ∧ prev_macd ≥ 0 then
      (-(7/10), "MACD bearish crossover detected")
    else if current_macd > 0 then
      (3/10, "MACD above zero line (bullish momentum)")
    else if current_macd < 0 then
      (-(3/10), "MACD below zero line (bearish momentum)")
    else (0, "MACD neutral")

/-- RecommendationEngine.calculate_ma_score.  nrows is the row count of the
frame; sma_20 and sma_50 are the moving-average columns when present.  The
detected sub-signals are combined by arithmetic mean (np.mean). -/
def calculate_ma_score (price : ℚ) (nrows : Nat)
    (sma_20 sma_50 : Option (List ℚ)) : ℚ × String :=
  let sub1 : List (ℚ × String) :=
    match sma_20 with
    | some col =>
        let s := col.getLastD 0
        if price > s * (102/100) then [(5/10, "Price well above 20-day SMA")]
        else if price > s then [(3/10, "Price above 20-day SMA")]
        else if price < s * (98/100) then
          [(-(5/10), "Price well below 20-day SMA")]
        else [(-(3/10), "Price below 20-day SMA")]
    | none => []
  let sub2 : List (ℚ × String) :=
    match sma_20, sma_50 with
    | some c20, some c50 =>
        if nrows > 1 then
          let cur20 := c20.getLastD 0
          let cur50 := c50.getLastD 0
          let prev20 := c20.dropLast.getLastD 0
          let prev50 := c50.dropLast.getLastD 0
          if cur20 > cur50 ∧ prev20 ≤ prev50 then
            [(8/10, "Golden cross detected (20-day above 50-day MA)")]
          else if cur20 < cur50 ∧ prev20 ≥ prev50 then
            [(-(8/10), "Death cross detected (20-day below 50-day MA)")]
          else []
        else []
    | _, _ => []
  let subs := sub1 ++ sub2
  let scores := subs.map Prod.fst
  let avg_score := if scores = [] then 0 else scores.sum / scores.length
  let combined_reason :=
    if subs = [] then "Insufficient MA data"
    else String.intercalate "; " (subs.map Prod.snd)
  (avg_score, combined_reason)

/-- RecommendationEngine.calculate_bb_score.  Requires the three band
columns; a zero or negative band width scores 0. -/
def calculate_bb_score (price : ℚ)
    (bb_upper bb_middle bb_lower : Option (List ℚ)) : ℚ × String :=
  match bb_upper, bb_lower, bb_middle with
  | some u, some l, some _m =>
      let bb_upper_v := u.getLastD 0
      let bb_lower_v := l.getLastD 0
      let bb_range := bb_upper_v - bb_lower_v
      if bb_range > 0 then
        let pos := (price - bb_lower_v) / bb_range
        if pos > 8/10 then (-(6/10), "Price near upper Bollinger Band")
        else if pos < 2/10 then (6/10, "Price near lower Bollinger Band")
        else (0, "Price in middle of Bollinger Bands")
      else (0, "Bollinger Bands too narrow")
  | _, _, _ => (0, "Bollinger Bands data not available")

/-- RecommendationEngine.calculate_volume_score. -/
def calculate_volume_score (current_volume avg_volume : ℚ) : ℚ × String :=
  if avg_volume = 0 then (0, "No volume data available")
  else
    let r := current_volume / avg_volume
    if r > 2 then (4/10, "Very high volume - strong conviction")
    else if r > 3/2 then (2/10, "High volume - good conviction")
    else if r < 1/2 then (-(2/10), "Low volume - weak conviction")
    else (0, "Normal volume")

/-- The accumulation loop of generate_recommendation (lines 287-294): one
pass over the scores dict, accumulating (total_score, total_weight). -/
def weighted_sums (w : String → ℚ) (scores : List (String × ℚ)) : ℚ × ℚ :=
  scores.foldl (fun acc p => (acc.1 + p.2 * w p.1, acc.2 + w p.1)) (0, 0)

/-- The composite score of generate_recommendation (lines 296-300):
total_score / total_weight when total_weight > 0, else 0. -/
def final_score_of (w : String → ℚ) (scores : List (String × ℚ)) : ℚ :=
  let s := weighted_sums w scores
  if s.2 > 0 then s.1 / s.2 else 0

/-- Python int(): truncation toward zero. -/
def pyInt (q : ℚ) : ℤ :=
  if 0 ≤ q then ⌊q⌋ else ⌈q⌉

/-- The action/confidence decision of generate_recommendation
(lines 302-311). -/
def decideAction (final_score : ℚ) : String × ℤ :=
  if final_score > 15/100 then
    ("BUY", min 95 (pyInt (20 + |final_score| * 150)))
  else if final_score < -(15/100) then
    ("SELL", min 95 (pyInt (20 + |final_score| * 150)))
  else
    ("HOLD", max 50 (pyInt (80 - |final_score| * 100)))

/-- The price frame handed to generate_recommendation: a close column plus
the indicator columns it inspects, each optional.  Present columns are
aligned 1:1 with close. -/
structure RecFrame where
  close : List ℚ
  rsi : Option (List ℚ)
  macd : Option (List ℚ)
  sma_20 : Option (List ℚ)
  sma_50 : Option (List ℚ)
  bb_upper : Option (List ℚ)
  bb_middle : Option (List ℚ)
  bb_lower : Option (List ℚ)
  volume : Option (List ℚ)
  volume_ma : Option (List ℚ)
deriving Repr, DecidableEq

/-- The fields of the result dict that the claims inspect. -/
structure RecResult where
  action : String
  confidence : ℤ
  score : ℚ
  reasoning : String
  individual_scores : List (String × ℚ)
deriving Repr, DecidableEq

/-- series.tail(2). -/
def tail2 (l : List ℚ) : List ℚ :=
  l.drop (l.length - 2)

/-- RecommendationEngine.generate_recommendation.  The empty-frame early
return produces HOLD with confidence 0 and the no-data reason; otherwise
each indicator whose columns are present contributes a score, and the
weighted composite is mapped through the decision thresholds.  The source
wraps the body in try/except, so the function is total for the caller. -/
def generate_recommendation (risk_tolerance : String) (data : RecFrame) :
    RecResult :=
  if data.close = [] then ⟨"HOLD", 0, 0, "No data available", []⟩
  else
    let current_price := data.close.getLastD 0
    let rsiScores : List (String × ℚ) :=
      match data.rsi with
      | some col => [("rsi", (calculate_rsi_score (col.getLastD 0)).1)]
      | none => []
    let macdScores : List (String × ℚ) :=
      match data.macd with
      | some col => [("macd", (calculate_macd_score (tail2 col)).1)]
      | none => []
    let maScores : List (String × ℚ) :=
      if data.sma_20.isSome ∨ data.sma_50.isSome then
        [("moving_averages",
          (calculate_ma_score current_price data.close.length
            data.sma_20 data.sma_50).1)]
      else []
    let bbScores : List (String × ℚ) :=
      if data.bb_upper.isSome ∨ data.bb_middle.isSome ∨ data.bb_lower.isSome
      then
        [("bollinger_bands",
          (calculate_bb_score current_price data.bb_upper data.bb_middle
            data.bb_lower).1)]
      else []
    let volScores : List (String × ℚ) :=
      match data.volume, data.volume_ma with
      | some v, some vm =>
          [("volume",
            (calculate_volume_score (v.getLastD 0) (vm.getLastD 0)).1)]
      | _, _ => []
    let scores := rsiScores ++ macdScores ++ maScores ++ bbScores ++ volScores
    let final_score := final_score_of (score_weights risk_tolerance) scores
    let decision := decideAction final_score
    ⟨decision.1, decision.2, final_score, "Overall score", scores⟩

/-! ## Indicator engine (technical_analysis.py)

calculate_all_indicators is modelled at the level of column presence: each
indicator requires certain input columns (raising KeyError when absent,
the failure mode the spec names) and contributes named output columns.
The single try/except of the source catches a failure of any of the four
unconditionally-run indicators and then returns the original frame; the
Stochastic oscillator runs only under an explicit high/low/close guard. -/

/-- A price frame as seen by the indicator engine: the set of columns
present (in order). -/
structure TAFrame where
  cols : List String
deriving Repr, DecidableEq

/-- Output columns of calculate_rsi, defined when the close column exists. -/
def calculate_rsi_cols (data : TAFrame) : Option (List String) :=
  if "close" ∈ data.cols then some ["rsi"] else none

/-- Output columns of calculate_macd. -/
def calculate_macd_cols (data : TAFrame) : Option (List String) :=
  if "close" ∈ data.cols then some ["macd", "signal", "histogram"] else none

/-- Output columns of calculate_moving_averages (periods 20, 50, 200). -/
def calculate_moving_averages_cols (data : TAFrame) : Option (List String) :=
  if "close" ∈ data.cols then
    some ["sma_20", "ema_20", "sma_50", "ema_50", "sma_200", "ema_200"]
  else none

/-- Output columns of calculate_bollinger_bands. -/
def calculate_bollinger_bands_cols (data : TAFrame) : Option (List String) :=
  if "close" ∈ data.cols then some ["bb_upper", "bb_middle", "bb_lower"]
  else none

/-- Output columns of calculate_stochastic, which reads high, low and
close. -/
def calculate_stochastic_cols (data : TAFrame) : Option (List String) :=
  if "high" ∈ data.cols ∧ "low" ∈ data.cols ∧ "close" ∈ data.cols then
    some ["stoch_k", "stoch_d"]
  else none

/-- TechnicalAnalyzer.calculate_all_indicators: the four unconditional
indicators run inside one try block (a failure of any of them returns the
original frame); the Stochastic oscillator is guarded on the presence of
high, low and close, so its missing-columns failure skips it rather than
aborting the rest. -/
def calculate_all_indicators (data : TAFrame) : TAFrame :=
  match calculate_rsi_cols data, calculate_macd_cols data,
        calculate_moving_averages_cols data,
        calculate_bollinger_bands_cols data with
  | some rsiC, some macdC, some maC, some bbC =>
      let result := data.cols ++ rsiC ++ macdC ++ maC ++ bbC
      if "high" ∈ data.cols ∧ "low" ∈ data.cols ∧ "close" ∈ data.cols then
        match calculate_stochastic_cols data with
        | some stochC => ⟨result ++ stochC⟩
        | none => data
      else ⟨result⟩
  | _, _, _, _ => data

/-! ## Helper lemmas -/

theorem upper_buy : upper "BUY" = "BUY" := rfl

theorem upper_sell : upper "SELL" = "SELL" := rfl

theorem score_weights_moderate : score_weights "moderate" = moderateWeights :=
  rfl

/-- A hit in the positions table carries the queried symbol. -/
theorem lookupPosition_symbol {l : List PositionRow} {s : String}
    {r : PositionRow} (h : lookupPosition l s = some r) : r.symbol = s := by
  have := List.find?_some h
  simpa using this

/-- Looking up after an UPDATE ... WHERE symbol = ? that preserves the
symbol column. -/
theorem lookupPosition_map_update (l : List PositionRow) (s : String)
    (g : PositionRow → PositionRow) (hg : ∀ r, (g r).symbol = r.symbol) :
    lookupPosition (l.map fun r => if r.symbol == s then g r else r) s
      = (lookupPosition l s).map g := by
  induction l with
  | nil => rfl
  | cons head tail ih =>
      unfold lookupPosition at ih ⊢
      by_cases h : head.symbol = s
      · rw [List.map_cons, if_pos (by simpa using h),
          List.find?_cons_of_pos _ (by simpa [hg] using h),
          List.find?_cons_of_pos _ (by simpa using h)]
        rfl
      · rw [List.map_cons, if_neg (by simpa using h),
          List.find?_cons_of_neg _ (by simpa using h),
          List.find?_cons_of_neg _ (by simpa using h)]
        exact ih

/-- Looking up after a DELETE ... WHERE symbol = ? finds nothing. -/
theorem lookupPosition_filter_out (l : List PositionRow) (s : String) :
    lookupPosition (l.filter fun r => !(r.symbol == s)) s = none := by
  unfold lookupPosition
  rw [List.find?_eq_none]
  intro x hx
  have hmem := (List.mem_filter.mp hx).2
  simp only [Bool.not_eq_true'] at hmem
  simp [hmem]

/-- Looking up after an INSERT when the symbol was absent. -/
theorem lookupPosition_append (l : List PositionRow) (s : String)
    (r : PositionRow) (h : lookupPosition l s = none) (hr : r.symbol = s) :
    lookupPosition (l ++ [r]) s = some r := by
  unfold lookupPosition at h ⊢
  rw [List.find?_append, h]
  simp [List.find?, hr]

/-! ## Claim theorems: ledger -/

/-- C1: the spec requires execute_transaction to reject an oversell (and any
non-positive quantity or price) with InvalidTransaction before any ledger
mutation.  The source performs no such validation: evaluating the code on a
SELL of 120 shares against a 100-share position shows that the transaction
row is appended and the position row is deleted, and a BUY with quantity 0
and a negative price is likewise accepted and recorded.  This theorem
evaluates the embedded code at those failing inputs. -/
theorem c1_oversell_not_rejected :
    (execute_transaction ⟨[⟨"AAPL", 100, 50, 0, 0⟩], [], []⟩
        "AAPL" "SELL" 120 60 0 none none 1).transactions.length = 1
    ∧ lookupPosition (execute_transaction ⟨[⟨"AAPL", 100, 50, 0, 0⟩], [], []⟩
        "AAPL" "SELL" 120 60 0 none none 1).positions "AAPL" = none
    ∧ (execute_transaction ⟨[⟨"AAPL", 100, 50, 0, 0⟩], [], []⟩
        "AAPL" "BUY" 0 (-10) 0 none none 1).transactions.length = 1 := by
  refine ⟨by simp [execute_transaction], ?_, by simp [execute_transaction]⟩
  simp only [execute_transaction, update_position, lookupPosition, upper_sell]
  norm_num [List.find?, List.filter]

/-- C2: a BUY into an existing position (of positive quantity) merges at the
weighted-average cost (oldQty*oldAvgCost + buyQty*buyPrice)/(oldQty+buyQty)
and adds the quantities; a first BUY creates the position with
avg_cost = price. -/
theorem c2_buy_weighted_average_cost (st : TrackerState) (symbol : String)
    (q p c : ℚ) (rid : Option String) (nts : Option String) (now : Nat) :
    (∀ row, lookupPosition st.positions symbol = some row →
        0 < row.quantity → 0 < q →
        lookupPosition (execute_transaction st symbol "BUY" q p c rid nts
            now).positions symbol
          = some ⟨symbol, row.quantity + q,
              (row.quantity * row.avg_cost + q * p) / (row.quantity + q),
              row.entry_date, now⟩)
    ∧ (lookupPosition st.positions symbol = none →
        lookupPosition (execute_transaction st symbol "BUY" q p c rid nts
            now).positions symbol
          = some ⟨symbol, q, p, now, now⟩) := by
  constructor
  · intro row hrow _hq0 _hq
    have hsym : row.symbol = symbol := lookupPosition_symbol hrow
    show lookupPosition (update_position st.positions symbol "BUY" q p now)
        symbol = _
    rw [update_position]
    rw [if_pos (show upper "BUY" = "BUY" from rfl)]
    simp only [hrow]
    rw [lookupPosition_map_update st.positions symbol
      (fun r => ⟨r.symbol, row.quantity + q,
        (row.quantity * row.avg_cost + q * p) / (row.quantity + q),
        r.entry_date, now⟩) (fun r => rfl), hrow]
    cases row
    simp_all
  · intro hnone
    show lookupPosition (update_position st.positions symbol "BUY" q p now)
        symbol = _
    rw [update_position]
    rw [if_pos (show upper "BUY" = "BUY" from rfl)]
    simp only [hnone]
    exact lookupPosition_append _ _ _ hnone rfl

/-- C6: a SELL of the entire held quantity deletes the position row (a
subsequent lookup finds no row for the symbol); a SELL of a smaller
quantity leaves avg_cost and entry_date unchanged, updating only quantity
and last_updated. -/
theorem c6_sell_removal_and_frame (st : TrackerState) (symbol : String)
    (q p c : ℚ) (rid : Option String) (nts : Option String) (now : Nat) :
    (∀ row, lookupPosition st.positions symbol = some row →
        q = row.quantity →
        lookupPosition (execute_transaction st symbol "SELL" q p c rid nts
            now).positions symbol = none)
    ∧ (∀ row, lookupPosition st.positions symbol = some row →
        q < row.quantity →
        lookupPosition (execute_transaction st symbol "SELL" q p c rid nts
            now).positions symbol
          = some ⟨symbol, row.quantity - q, row.avg_cost, row.entry_date,
              now⟩) := by
  constructor
  · intro row hrow hq
    show lookupPosition (update_position st.positions symbol "SELL" q p now)
        symbol = none
    rw [update_position]
    rw [if_neg (show ¬ upper "SELL" = "BUY" by decide),
      if_pos (show upper "SELL" = "SELL" from rfl)]
    simp only [hrow]
    rw [if_pos (by rw [hq]; simp)]
    exact lookupPosition_filter_out _ _
  · intro row hrow hq
    have hsym : row.symbol = symbol := lookupPosition_symbol hrow
    show lookupPosition (update_position st.positions symbol "SELL" q p now)
        symbol = _
    rw [update_position]
    rw [if_neg (show ¬ upper "SELL" = "BUY" by decide),
      if_pos (show upper "SELL" = "SELL" from rfl)]
    simp only [hrow]
    rw [if_neg (by simp only [not_le]; linarith)]
    rw [lookupPosition_map_update st.positions symbol
      (fun r => ⟨r.symbol, row.quantity - q, r.avg_cost, r.entry_date, now⟩)
      (fun r => rfl), hrow]
    cases row
    simp_all

/-- Witness for C2 at a concrete input: BUY 100 at 150 into an empty book
creates the position at avg_cost 150, and a further BUY 50 at 180 yields
quantity 150 at avg_cost exactly 160. -/
theorem c2_witness :
    lookupPosition (execute_transaction
        (execute_transaction ⟨[], [], []⟩ "AAPL" "BUY" 100 150 0 none none 0)
        "AAPL" "BUY" 50 180 0 none none 1).positions "AAPL"
      = some ⟨"AAPL", 150, 160, 0, 1⟩ := by
  have h1 := (c2_buy_weighted_average_cost ⟨[], [], []⟩ "AAPL"
      (100 : ℚ) 150 0 none none 0).2 rfl
  have h2 := (c2_buy_weighted_average_cost
      (execute_transaction ⟨[], [], []⟩ "AAPL" "BUY" 100 150 0 none none 0)
      "AAPL" (50 : ℚ) 180 0 none none 1).1
      ⟨"AAPL", 100, 150, 0, 0⟩ h1 (by norm_num) (by norm_num)
  rw [h2]
  norm_num

/-- Witness for C6 at a concrete input: selling all 150 shares removes the
position entirely, and selling 50 of them keeps avg_cost untouched. -/
theorem c6_witness :
    lookupPosition (execute_transaction ⟨[⟨"AAPL", 150, 160, 0, 0⟩], [], []⟩
        "AAPL" "SELL" 150 170 0 none none 1).positions "AAPL" = none
    ∧ lookupPosition (execute_transaction ⟨[⟨"AAPL", 150, 160, 0, 0⟩], [], []⟩
        "AAPL" "SELL" 50 170 0 none none 1).positions "AAPL"
      = some ⟨"AAPL", 100, 160, 0, 1⟩ := by
  constructor
  · exact (c6_sell_removal_and_frame ⟨[⟨"AAPL", 150, 160, 0, 0⟩], [], []⟩
      "AAPL" (150 : ℚ) 170 0 none none 1).1 ⟨"AAPL", 150, 160, 0, 0⟩ rfl rfl
  · have h := (c6_sell_removal_and_frame ⟨[⟨"AAPL", 150, 160, 0, 0⟩], [], []⟩
      "AAPL" (50 : ℚ) 170 0 none none 1).2 ⟨"AAPL", 150, 160, 0, 0⟩ rfl
      (by norm_num)
    rw [h]
    norm_num

/-- C8 (amended): the executed flag of a recommendation becomes true only
through execute_transaction, which appends the associated transaction row
carrying the recommendation link in the same state change, and the flag is
one-way (no operation resets it to false); add_recommendation only appends
rows with executed = false.  (The execution_price/execution_date fields are
not immutable, as the counterexample shows.) -/
theorem c8_executed_provenance :
    (∀ (st : TrackerState) (symbol action : String) (q p c : ℚ)
        (rid : Option String) (nts : Option String) (now : Nat),
        (∃ t : Transaction,
            (execute_transaction st symbol action q p c rid nts
                now).transactions = st.transactions ++ [t]
            ∧ t.recommendation_id = rid)
        ∧ ∀ r ∈ st.recommendations,
            ∃ r' ∈ (execute_transaction st symbol action q p c rid nts
                now).recommendations,
              r'.recommendation_id = r.recommendation_id
              ∧ (r.executed = true → r'.executed = true)
              ∧ (r'.executed = true →
                  r.executed = true ∨ rid = some r.recommendation_id))
    ∧ (∀ (st : TrackerState) (symbol action : String) (conf : ℚ)
        (reasoning : String) (tp sl : Option ℚ) (now : Nat),
        ∀ r' ∈ (add_recommendation st symbol action conf reasoning tp sl
            now).recommendations,
          r' ∈ st.recommendations ∨ r'.executed = false) := by
  constructor
  · intro st symbol action q p c rid nts now
    constructor
    · exact ⟨_, rfl, rfl⟩
    · intro r hr
      cases rid with
      | none =>
          exact ⟨r, hr, rfl, fun h => h, fun h => Or.inl h⟩
      | some rid0 =>
          simp only [execute_transaction]
          by_cases hid : r.recommendation_id = rid0
          · refine ⟨_, List.mem_map_of_mem _ hr, ?_⟩
            simp [hid]
          · refine ⟨_, List.mem_map_of_mem _ hr, ?_⟩
            simp [hid]
            exact fun h => Or.inl h
  · intro st symbol action conf reasoning tp sl now r' hmem
    simp only [add_recommendation] at hmem
    rcases List.mem_append.mp hmem with h | h
    · exact Or.inl h
    · right
      rw [List.mem_singleton.mp h]

/-- C8 counterexample: once a recommendation is marked executed its link is
not immutable.  After executing against recommendation R1 at price 150, a
second transaction referencing R1 at price 160 overwrites execution_price
(and execution_date), contradicting the immutability part of the claim. -/
theorem c8_link_overwritten :
    ((execute_transaction
        ⟨[], [], [⟨"R1", "AAPL", "BUY", 75, "strong", none, none, 0, false,
          none, none, none⟩]⟩
        "AAPL" "BUY" 10 150 0 (some "R1") none 1).recommendations.find?
        (fun r => r.recommendation_id == "R1")).map
        Recommendation.execution_price = some (some 150)
    ∧ ((execute_transaction (execute_transaction
        ⟨[], [], [⟨"R1", "AAPL", "BUY", 75, "strong", none, none, 0, false,
          none, none, none⟩]⟩
        "AAPL" "BUY" 10 150 0 (some "R1") none 1)
        "AAPL" "BUY" 5 160 0 (some "R1") none 2).recommendations.find?
        (fun r => r.recommendation_id == "R1")).map
        Recommendation.execution_price = some (some 160)
    ∧ (some (150 : ℚ) : Option ℚ) ≠ some 160 := by
  refine ⟨?_, ?_, by norm_num⟩
  · simp [execute_transaction, List.find?]
  · simp [execute_transaction, List.find?]

/-- Witness for C8 at a concrete input: an already-executed recommendation
stays executed across a further transaction that does not reference it, and
the transaction row is appended carrying no link. -/
theorem c8_witness :
    (∃ t : Transaction,
        (execute_transaction
          ⟨[], [], [⟨"R2", "MSFT", "BUY", 60, "x", none, none, 0, true,
            some 100, some 0, none⟩]⟩
          "MSFT" "BUY" 1 101 0 none none 3).transactions
          = ([] : List Transaction) ++ [t] ∧ t.recommendation_id = none)
    ∧ ∃ r' ∈ (execute_transaction
        ⟨[], [], [⟨"R2", "MSFT", "BUY", 60, "x", none, none, 0, true,
          some 100, some 0, none⟩]⟩
        "MSFT" "BUY" 1 101 0 none none 3).recommendations,
      r'.recommendation_id = "R2" ∧ (true = true → r'.executed = true) := by
  have h := c8_executed_provenance.1
    ⟨[], [], [⟨"R2", "MSFT", "BUY", 60, "x", none, none, 0, true,
      some 100, some 0, none⟩]⟩ "MSFT" "BUY" 1 101 0 none none 3
  refine ⟨h.1, ?_⟩
  obtain ⟨r', hmem, hid, hexec, _⟩ := h.2
    ⟨"R2", "MSFT", "BUY", 60, "x", none, none, 0, true, some 100, some 0,
      none⟩ (by simp)
  exact ⟨r', hmem, hid, fun _ => hexec rfl⟩

/-! ## Claim theorems: scoring engine -/

/-- The accumulation loop computes the sum of weighted scores and the sum of
weights of the available indicators. -/
theorem weighted_sums_eq (w : String → ℚ) (scores : List (String × ℚ)) :
    weighted_sums w scores
      = ((scores.map fun p => p.2 * w p.1).sum,
         (scores.map fun p => w p.1).sum) := by
  suffices h : ∀ (l : List (String × ℚ)) (a : ℚ × ℚ),
      l.foldl (fun acc p => (acc.1 + p.2 * w p.1, acc.2 + w p.1)) a
        = (a.1 + (l.map fun p => p.2 * w p.1).sum,
           a.2 + (l.map fun p => w p.1).sum) by
    rw [weighted_sums, h]
    simp
  intro l
  induction l with
  | nil => intro a; simp
  | cons head tail ih =>
      intro a
      rw [List.foldl_cons, ih]
      simp only [List.map_cons, List.sum_cons]
      rw [Prod.ext_iff]
      constructor <;> simp <;> ring

/-- Every indicator category has a strictly positive weight under every risk
tolerance string (unknown strings fall back to the moderate table). -/
theorem score_weights_pos (risk ind : String) (h : ind ∈ indicatorCategories) :
    0 < score_weights risk ind := by
  have hcases : score_weights risk = conservativeWeights
      ∨ score_weights risk = moderateWeights
      ∨ score_weights risk = aggressiveWeights := by
    unfold score_weights
    split_ifs <;> simp
  simp only [indicatorCategories, List.mem_cons, List.mem_singleton,
    List.not_mem_nil, or_false] at h
  rcases hcases with hw | hw | hw <;> rw [hw] <;>
    rcases h with rfl | rfl | rfl | rfl | rfl <;>
      simp [conservativeWeights, moderateWeights, aggressiveWeights]

/-- The denominator (sum of weights of available indicators) is positive for
a non-empty available subset of the five categories. -/
theorem total_weight_pos (risk : String) (scores : List (String × ℚ))
    (hne : scores ≠ [])
    (hmem : ∀ p ∈ scores, p.1 ∈ indicatorCategories) :
    0 < (scores.map fun p => score_weights risk p.1).sum := by
  apply List.sum_pos
  · intro x hx
    obtain ⟨p, hp, rfl⟩ := List.mem_map.mp hx
    exact score_weights_pos risk p.1 (hmem p hp)
  · simpa using hne

/-- A weighted sum of scores bounded by 1 in absolute value is bounded by
the sum of the (non-negative) weights. -/
theorem abs_weighted_sum_le (w : String → ℚ) (scores : List (String × ℚ))
    (hw : ∀ p ∈ scores, 0 ≤ w p.1) (hb : ∀ p ∈ scores, |p.2| ≤ 1) :
    |(scores.map fun p => p.2 * w p.1).sum|
      ≤ (scores.map fun p => w p.1).sum := by
  induction scores with
  | nil => simp
  | cons head tail ih =>
      simp only [List.map_cons, List.sum_cons]
      have h1 : |head.2 * w head.1| ≤ w head.1 := by
        rw [abs_mul, abs_of_nonneg (hw head (by simp))]
        calc |head.2| * w head.1 ≤ 1 * w head.1 :=
              mul_le_mul_of_nonneg_right (hb head (by simp))
                (hw head (by simp))
          _ = w head.1 := one_mul _
      calc |head.2 * w head.1 + (tail.map fun p => p.2 * w p.1).sum|
          ≤ |head.2 * w head.1| + |(tail.map fun p => p.2 * w p.1).sum| :=
            abs_add _ _
        _ ≤ w head.1 + (tail.map fun p => w p.1).sum :=
            add_le_add h1 (ih (fun p hp => hw p (by simp [hp]))
              (fun p hp => hb p (by simp [hp])))

/-- C3: for per-indicator scores each in [-1,1] over a non-empty subset of
the five indicator categories, the composite equals the weighted mean whose
denominator is the sum of the weights of the available indicators only, and
it lies in [-1,1], under every risk tolerance. -/
theorem c3_composite_renormalized_mean (risk : String)
    (scores : List (String × ℚ)) (hne : scores ≠ [])
    (hmem : ∀ p ∈ scores, p.1 ∈ indicatorCategories)
    (hb : ∀ p ∈ scores, |p.2| ≤ 1) :
    final_score_of (score_weights risk) scores
        = (scores.map fun p => p.2 * score_weights risk p.1).sum
          / (scores.map fun p => score_weights risk p.1).sum
    ∧ -1 ≤ final_score_of (score_weights risk) scores
    ∧ final_score_of (score_weights risk) scores ≤ 1 := by
  have hpos := total_weight_pos risk scores hne hmem
  have heq : final_score_of (score_weights risk) scores
      = (scores.map fun p => p.2 * score_weights risk p.1).sum
        / (scores.map fun p => score_weights risk p.1).sum := by
    rw [final_score_of, weighted_sums_eq]
    exact if_pos hpos
  have habs : |final_score_of (score_weights risk) scores| ≤ 1 := by
    rw [heq, abs_div, abs_of_pos hpos, div_le_one hpos]
    exact abs_weighted_sum_le _ _
      (fun p hp => (score_weights_pos risk p.1 (hmem p hp)).le) hb
  obtain ⟨hlo, hhi⟩ := abs_le.mp habs
  exact ⟨heq, hlo, hhi⟩

/-- Witness for C3 at a concrete input: a single available indicator. -/
theorem c3_witness :
    final_score_of (score_weights "moderate") [("rsi", 8/10)]
        = ([(("rsi" : String), (8 : ℚ)/10)].map
            fun p => p.2 * score_weights "moderate" p.1).sum
          / ([(("rsi" : String), (8 : ℚ)/10)].map
            fun p => score_weights "moderate" p.1).sum
    ∧ -1 ≤ final_score_of (score_weights "moderate") [("rsi", 8/10)]
    ∧ final_score_of (score_weights "moderate") [("rsi", 8/10)] ≤ 1 :=
  c3_composite_renormalized_mean "moderate" [("rsi", 8/10)] (by simp)
    (by
      intro p hp
      simp only [List.mem_singleton] at hp
      rw [hp]
      simp [indicatorCategories])
    (by
      intro p hp
      simp only [List.mem_singleton] at hp
      rw [hp, show |(8 : ℚ)/10| = 8/10 from abs_of_nonneg (by norm_num)]
      norm_num)

/-- C4: the recommended action is BUY iff the composite exceeds 0.15, SELL
iff it is below -0.15, HOLD otherwise, and both boundary values map to
HOLD. -/
theorem c4_action_thresholds (c : ℚ) :
    ((decideAction c).1 = "BUY" ↔ 15/100 < c)
    ∧ ((decideAction c).1 = "SELL" ↔ c < -(15/100))
    ∧ ((decideAction c).1 = "HOLD" ↔ -(15/100) ≤ c ∧ c ≤ 15/100)
    ∧ (decideAction (15/100 : ℚ)).1 = "HOLD"
    ∧ (decideAction (-(15/100) : ℚ)).1 = "HOLD" := by
  have hb1 : (decideAction (15/100 : ℚ)).1 = "HOLD" := by
    rw [decideAction]
    norm_num
  have hb2 : (decideAction (-(15/100) : ℚ)).1 = "HOLD" := by
    rw [decideAction]
    norm_num
  refine ⟨?_, ?_, ?_, hb1, hb2⟩
  · rw [decideAction]
    split_ifs with h1 h2
    · simpa using h1
    · simp only [Prod.fst]
      constructor
      · intro h
        exact absurd h (by decide)
      · intro h
        linarith
    · simp only [Prod.fst]
      constructor
      · intro h
        exact absurd h (by decide)
      · intro h
        push_neg at h1
        linarith
  · rw [decideAction]
    split_ifs with h1 h2
    · simp only [Prod.fst]
      constructor
      · intro h
        exact absurd h (by decide)
      · intro h
        linarith
    · simpa using h2
    · simp only [Prod.fst]
      constructor
      · intro h
        exact absurd h (by decide)
      · intro h
        exact absurd h h2
  · rw [decideAction]
    split_ifs with h1 h2
    · simp only [Prod.fst]
      constructor
      · intro h
        exact absurd h (by decide)
      · intro h
        linarith [h.2]
    · simp only [Prod.fst]
      constructor
      · intro h
        exact absurd h (by decide)
      · intro h
        linarith [h.1]
    · simp only [Prod.fst]
      push_neg at h1 h2
      simp only [true_iff, eq_self_iff_true]
      exact ⟨h2, h1⟩

/-- Witness for C4 at concrete inputs: both boundary values map to HOLD and
a composite of 1/2 maps to BUY. -/
theorem c4_witness :
    (decideAction (15/100 : ℚ)).1 = "HOLD"
    ∧ (decideAction (-(15/100) : ℚ)).1 = "HOLD"
    ∧ (decideAction (1/2 : ℚ)).1 = "BUY" :=
  ⟨(c4_action_thresholds 0).2.2.2.1, (c4_action_thresholds 0).2.2.2.2,
   (c4_action_thresholds (1/2)).1.mpr (by norm_num)⟩

/-- Python int truncation agrees with the floor on non-negative inputs. -/
theorem pyInt_eq_floor_of_nonneg {q : ℚ} (h : 0 ≤ q) : pyInt q = ⌊q⌋ :=
  if_pos h

/-- Under the outer max with 50, truncation and floor agree everywhere. -/
theorem max_fifty_pyInt (x : ℚ) : max 50 (pyInt x) = max 50 ⌊x⌋ := by
  unfold pyInt
  split_ifs with h
  · rfl
  · push_neg at h
    have h1 : ⌈x⌉ ≤ 0 := Int.ceil_le.mpr (by push_cast; linarith)
    have h2 : ⌊x⌋ ≤ ⌈x⌉ := Int.floor_le_ceil x
    rw [max_eq_left (by omega), max_eq_left (by omega)]

/-- C7 counterexample: the confidence is truncated to an integer before the
upper clamp, so it does not equal clamp(20 + |c|*150, 0, 95) exactly.  At
the reachable composite score 43/110 (rsi 0.6, macd 0.3, volume 0.2 under
the moderate profile) the code yields confidence 78 while the claimed
formula yields 8650/110. -/
theorem c7_truncation_counterexample :
    final_score_of (score_weights "moderate")
        [("rsi", 6/10), ("macd", 3/10), ("volume", 2/10)] = 43/110
    ∧ (decideAction (43/110 : ℚ)).1 = "BUY"
    ∧ (decideAction (43/110 : ℚ)).2 = 78
    ∧ (78 : ℚ) ≠ max 0 (min 95 (20 + |(43/110 : ℚ)| * 150)) := by
  have e1 : moderateWeights "rsi" = 20/100 := rfl
  have e2 : moderateWeights "macd" = 25/100 := rfl
  have e5 : moderateWeights "volume" = 10/100 := rfl
  refine ⟨?_, ?_, ?_, ?_⟩
  · rw [final_score_of, weighted_sums, score_weights_moderate]
    simp only [List.foldl]
    rw [e1, e2, e5]
    norm_num
  · rw [decideAction]
    norm_num
  · rw [decideAction]
    norm_num [pyInt, abs_of_nonneg]
  · have habs : |(43/110 : ℚ)| = 43/110 := abs_of_nonneg (by norm_num)
    rw [habs, min_def, max_def]
    norm_num

/-- C7 (amended): the confidence equals min(95, int(20 + |c|*150)) for
BUY/SELL and max(50, int(80 - |c|*100)) for HOLD, where int is Python
integer truncation (equal to the floor on the values that arise), and in
all cases the confidence lies in [0, 100].  (The lower clamp at 0 of the
claimed formula can never bind, since 20 + |c|*150 is at least 20.) -/
theorem c7_confidence_formula (c : ℚ) :
    ((decideAction c).1 = "BUY" ∨ (decideAction c).1 = "SELL" →
        (decideAction c).2 = min 95 ⌊20 + |c| * 150⌋)
    ∧ ((decideAction c).1 = "HOLD" →
        (decideAction c).2 = max 50 ⌊80 - |c| * 100⌋)
    ∧ 0 ≤ (decideAction c).2 ∧ (decideAction c).2 ≤ 100 := by
  have habs : (0 : ℚ) ≤ |c| := abs_nonneg c
  have hmul : (0 : ℚ) ≤ |c| * 150 :=
    mul_nonneg habs (by norm_num)
  have hmul2 : (0 : ℚ) ≤ |c| * 100 :=
    mul_nonneg habs (by norm_num)
  have h20 : (0 : ℚ) ≤ 20 + |c| * 150 := by linarith
  have hfl20 : (20 : ℤ) ≤ ⌊20 + |c| * 150⌋ := by
    apply Int.le_floor.mpr
    push_cast
    linarith
  have hfl80 : ⌊(80 : ℚ) - |c| * 100⌋ ≤ 80 := by
    have h80 : (80 : ℚ) - |c| * 100 ≤ 80 := by linarith
    calc ⌊(80 : ℚ) - |c| * 100⌋ ≤ ⌊(80 : ℚ)⌋ := Int.floor_le_floor h80
      _ = 80 := by norm_num
  rw [decideAction]
  split_ifs with h1 h2
  · refine ⟨fun _ => ?_, fun h => by simp at h, ?_, ?_⟩
    · show min 95 (pyInt (20 + |c| * 150)) = min 95 ⌊20 + |c| * 150⌋
      rw [pyInt_eq_floor_of_nonneg h20]
    · show (0 : ℤ) ≤ min 95 (pyInt (20 + |c| * 150))
      rw [pyInt_eq_floor_of_nonneg h20]
      exact le_min (by norm_num) (by omega)
    · show min 95 (pyInt (20 + |c| * 150)) ≤ 100
      exact le_trans (min_le_left _ _) (by norm_num)
  · refine ⟨fun _ => ?_, fun h => by simp at h, ?_, ?_⟩
    · show min 95 (pyInt (20 + |c| * 150)) = min 95 ⌊20 + |c| * 150⌋
      rw [pyInt_eq_floor_of_nonneg h20]
    · show (0 : ℤ) ≤ min 95 (pyInt (20 + |c| * 150))
      rw [pyInt_eq_floor_of_nonneg h20]
      exact le_min (by norm_num) (by omega)
    · show min 95 (pyInt (20 + |c| * 150)) ≤ 100
      exact le_trans (min_le_left _ _) (by norm_num)
  · refine ⟨fun h => ?_, fun _ => max_fifty_pyInt _, ?_, ?_⟩
    · rcases h with h | h <;> simp at h
    · show (0 : ℤ) ≤ max 50 (pyInt (80 - |c| * 100))
      exact le_trans (by norm_num) (le_max_left _ _)
    · show max 50 (pyInt (80 - |c| * 100)) ≤ 100
      rw [max_fifty_pyInt]
      exact max_le (by norm_num) (by omega)

/-- Witness for C7 at a concrete input: composite 1/2 gives a BUY whose
confidence matches the truncated formula and lies in [0, 100]. -/
theorem c7_witness :
    (decideAction (1/2 : ℚ)).2 = min 95 ⌊(20 : ℚ) + |(1/2 : ℚ)| * 150⌋
    ∧ 0 ≤ (decideAction (1/2 : ℚ)).2 ∧ (decideAction (1/2 : ℚ)).2 ≤ 100 :=
  ⟨(c7_confidence_formula (1/2)).1 (Or.inl (by rw [decideAction]; norm_num)),
   (c7_confidence_formula (1/2)).2.2.1,
   (c7_confidence_formula (1/2)).2.2.2⟩

/-- C9: on an empty price frame generate_recommendation returns HOLD with
confidence 0 and the explicit no-data reason.  The embedded function is
total, matching the try/except of the source that prevents any exception
from reaching the caller. -/
theorem c9_no_data_hold (risk_tolerance : String) (data : RecFrame)
    (h : data.close = []) :
    generate_recommendation risk_tolerance data
      = ⟨"HOLD", 0, 0, "No data available", []⟩ := by
  rw [generate_recommendation, if_pos h]

/-- Witness for C9 at a concrete input: the empty frame. -/
theorem c9_witness :
    generate_recommendation "moderate"
      ⟨[], none, none, none, none, none, none, none, none, none⟩
      = ⟨"HOLD", 0, 0, "No data available", []⟩ :=
  c9_no_data_hold "moderate" _ rfl

/-- C10: a stored position whose symbol is absent from current_prices is
still returned by get_positions, priced at its avg_cost, so its market
value is quantity*avg_cost and its unrealized PnL is 0. -/
theorem c10_missing_price_fallback (positions : List PositionRow)
    (current_prices : List (String × ℚ)) (now : Nat) (row : PositionRow)
    (hmem : row ∈ positions)
    (habs : current_prices.lookup row.symbol = none) :
    ∃ pos ∈ get_positions positions current_prices now,
      pos.symbol = row.symbol ∧ pos.current_price = row.avg_cost
      ∧ pos.market_value = row.quantity * row.avg_cost
      ∧ pos.unrealized_pnl = 0 := by
  rw [get_positions]
  refine ⟨_, List.mem_map_of_mem _ hmem, ?_⟩
  simp [habs]

/-- Witness for C10 at a concrete input: a position in AAPL with no AAPL
price supplied. -/
theorem c10_witness :
    ∃ pos ∈ get_positions [⟨"AAPL", 10, 100, 0, 0⟩] [("MSFT", 300)] 5,
      pos.symbol = "AAPL" ∧ pos.current_price = 100
      ∧ pos.market_value = 10 * 100 ∧ pos.unrealized_pnl = 0 :=
  c10_missing_price_fallback _ _ 5 ⟨"AAPL", 10, 100, 0, 0⟩ (by simp) rfl

/-! ## Claim theorems: indicator engine -/

/-- C5: when the frame has a close column but lacks high or low, the
Stochastic oscillator (the one failing indicator, via its missing required
columns) is omitted while every other indicator is still computed: the
result is the input columns plus exactly the RSI, MACD, moving-average and
Bollinger-band columns. -/
theorem c5_isolated_stochastic_failure (data : TAFrame)
    (hclose : "close" ∈ data.cols)
    (hfail : ¬ ("high" ∈ data.cols ∧ "low" ∈ data.cols)) :
    (calculate_all_indicators data).cols
      = data.cols ++ ["rsi", "macd", "signal", "histogram", "sma_20",
          "ema_20", "sma_50", "ema_50", "sma_200", "ema_200", "bb_upper",
          "bb_middle", "bb_lower"] := by
  have hhl : ¬ ("high" ∈ data.cols ∧ "low" ∈ data.cols
      ∧ "close" ∈ data.cols) := by tauto
  unfold calculate_all_indicators calculate_rsi_cols calculate_macd_cols
    calculate_moving_averages_cols calculate_bollinger_bands_cols
  simp only [if_pos hclose, if_neg hhl]
  simp

/-- Witness for C5 at a concrete input: a close/volume frame with no
high/low columns. -/
theorem c5_witness :
    (calculate_all_indicators ⟨["close", "volume"]⟩).cols
      = ["close", "volume"] ++ ["rsi", "macd", "signal", "histogram",
          "sma_20", "ema_20", "sma_50", "ema_50", "sma_200", "ema_200",
          "bb_upper", "bb_middle", "bb_lower"] :=
  c5_isolated_stochastic_failure ⟨["close", "volume"]⟩ (by simp) (by simp)

end InvestmentAdvisor
